import Mathlib

/-!
Verification development for the `rtsp-web-viewer` frame fan-out and
stream-lifecycle engine (source: `rtsp-stream.js`).

The definitions below are shallow embeddings of the JavaScript source:
pure fragments become Lean functions, the stateful server becomes an
explicit state record with a step function over events, and the
single-threaded event-loop semantics justifies treating each handler
body as one atomic state transformation.
-/

namespace RtspWebViewer

/-- Clients are identified by their socket id; we use naturals. -/
abbrev ClientId := Nat

/-- A frame is an opaque byte buffer; we identify frames by a number
(think: sequence number of production). -/
abbrev Frame := Nat

/-- `const MAX_QUEUE_SIZE = 3` (rtsp-stream.js line 59). -/
def MAX_QUEUE_SIZE : Nat := 3

/-- `const MAX_CLIENTS_PER_FRAME = 10` (rtsp-stream.js line 60). -/
def MAX_CLIENTS_PER_FRAME : Nat := 10

/-- The batch stagger passed to `setTimeout` in `processClientBatch`
(rtsp-stream.js line 193): 5 milliseconds. -/
def BATCH_STAGGER_MS : Nat := 5

/-- The restart delay passed to `setTimeout` in the stream error handler
(rtsp-stream.js line 144): 5000 milliseconds. -/
def RESTART_DELAY_MS : Nat := 5000

/-- The `setInterval` period resetting `frameCount` (rtsp-stream.js line 66):
10000 milliseconds. -/
def COUNTER_RESET_INTERVAL_MS : Nat := 10000

/-- `queueFrameForClient` (rtsp-stream.js lines 198-226), restricted to one
client.  Input: the client's connectivity (`socket && socket.connected`),
its current queue (`frameQueues.get(clientId)`, `[]` when absent, since the
map entry is lazily created), and the new frame.  Output: the queue after
the call and the frame emitted to the socket, if any.

The body runs synchronously on the event loop, so the two reads of
`socket.connected` see the same value.  `queue.push(frameData)` appends;
`queue.splice(0, queue.length - MAX_QUEUE_SIZE)` keeps the newest
`MAX_QUEUE_SIZE` entries; `queue.pop()` removes and returns the last
entry and `queue.length = 0` clears the rest before
`socket.volatile.emit('stream', frameToSend)`. -/
def queueFrameForClient1 (connected : Bool) (queue : List Frame) (frameData : Frame) :
    List Frame × Option Frame :=
  if connected = false then (queue, none)
  else
    let q1 := queue ++ [frameData]
    let q2 := if MAX_QUEUE_SIZE < q1.length then q1.drop (q1.length - MAX_QUEUE_SIZE) else q1
    if 0 < q2.length then ([], q2.getLast?)
    else (q2, none)

/-- Run a sequence of `queueFrameForClient` calls for one client.  Each
event is the client's connectivity at that call paired with the frame
being broadcast.  Returns the final queue and the list of frames that
were emitted to the client, in order. -/
def runClient : List Frame → List (Bool × Frame) → List Frame × List Frame
  | q, [] => (q, [])
  | q, e :: es =>
      let r := queueFrameForClient1 e.1 q e.2
      let rest := runClient r.1 es
      (rest.1, r.2.toList ++ rest.2)

/-- The batching loop of `handleNewFrame` (rtsp-stream.js lines 157-172):
walk the client set in iteration order, pushing onto `currentBatch` and
flushing a batch into `clientBatches` whenever it reaches
`MAX_CLIENTS_PER_FRAME`; the trailing partial batch is appended at the
end if non-empty. -/
def batchClientsAux : List ClientId → List (List ClientId) → List ClientId → List (List ClientId)
  | [], batches, currentBatch =>
      if 0 < currentBatch.length then batches ++ [currentBatch] else batches
  | c :: rest, batches, currentBatch =>
      let cur := currentBatch ++ [c]
      if MAX_CLIENTS_PER_FRAME ≤ cur.length then batchClientsAux rest (batches ++ [cur]) []
      else batchClientsAux rest batches cur

/-- The `clientBatches` list built by `handleNewFrame` from the current
client set (given in iteration order). -/
def batchClients (clients : List ClientId) : List (List ClientId) :=
  batchClientsAux clients [] []

/-- `processClientBatch` (rtsp-stream.js lines 179-195) as a schedule.
The source recurses on `batchIndex`: the guard
`batchIndex >= clientBatches.length` returns at once, otherwise
`clientBatches[batchIndex]` is processed at the current time `t` and, when
`batchIndex + 1 < clientBatches.length`, a `setTimeout(..., 5)` continues
with the next index 5 ms later.  We recurse on the suffix
`clientBatches.drop batchIndex`, whose head is `clientBatches[batchIndex]`
and which is empty exactly when the source's guard returns;
`processClientBatch` below restores the index-based signature.  The result
lists each processed batch with its processing time (milliseconds after
the frame arrived), in processing order. -/
def processBatchesFrom (t : Nat) : List (List ClientId) → List (Nat × List ClientId)
  | [] => []
  | batch :: rest =>
      (t, batch) ::
        (if 0 < rest.length then processBatchesFrom (t + BATCH_STAGGER_MS) rest else [])

/-- Index-based entry point of `processClientBatch`. -/
def processClientBatch (t : Nat) (batchIndex : Nat) (clientBatches : List (List ClientId)) :
    List (Nat × List ClientId) :=
  processBatchesFrom t (clientBatches.drop batchIndex)

/-- `handleNewFrame` (rtsp-stream.js lines 152-176), viewed as the schedule
of client batches it processes for one frame: batch 0 synchronously (time
0), each following batch 5 ms after its predecessor. -/
def handleNewFrame (clients : List ClientId) : List (Nat × List ClientId) :=
  processClientBatch 0 0 (batchClients clients)

/-- The events the server-side stream lifecycle reacts to.  Each one is a
handler body that runs atomically on the single-threaded event loop:
socket connection / disconnection (rtsp-stream.js lines 814-861), a
terminal FrameSource error (lines 111-146), the recovery `setTimeout`
callback firing (lines 132-144), and a configuration update
(lines 256-267). -/
inductive LifeEvent where
  | connect (c : ClientId)
  | disconnect (c : ClientId)
  | streamError
  | timerFire
  | configUpdate
deriving DecidableEq

/-- Server lifecycle state: the `activeClients` set, whether the `stream`
variable holds a FrameSource instance, whether that instance is running,
the number of scheduled-but-unfired recovery timers, and instrumentation
counters for `stream.start()` calls, `stream.stop()` calls and restart
attempts made from the recovery timer callback. -/
structure SysState where
  clients : Finset ClientId
  streamExists : Bool
  running : Bool
  pendingTimers : Nat
  startCalls : Nat
  stopCalls : Nat
  restartAttempts : Nat
deriving DecidableEq

/-- `startStreamIfNeeded` (rtsp-stream.js lines 229-241): when clients are
present, ensure a FrameSource instance exists (create one if `stream` is
null) and call `stream.start()` once. -/
def startStreamIfNeeded (s : SysState) : SysState :=
  if 0 < s.clients.card then
    { s with streamExists := true, running := true, startCalls := s.startCalls + 1 }
  else s

/-- `stopStreamIfNoClients` (rtsp-stream.js lines 244-253): when no client
remains and a FrameSource instance exists, call `stream.stop()` once
(best-effort; failures are logged and swallowed). -/
def stopStreamIfNoClients (s : SysState) : SysState :=
  if s.clients.card = 0 ∧ s.streamExists = true then
    { s with running := false, stopCalls := s.stopCalls + 1 }
  else s

/-- One lifecycle event handler, as in the source:
connection adds the socket id and calls `startStreamIfNeeded` only when the
set size just became 1 (line 822); disconnection removes the id and calls
`stopStreamIfNoClients` (line 859); a terminal stream error leaves the
producer dead and schedules one recovery timer iff `activeClients.size > 0`
(line 131); the timer callback re-checks `activeClients.size > 0` and only
then calls `startStreamIfNeeded` (line 133) — it is never cancelled;
`updateStreamConfig` recreates the FrameSource (stopping the previous
instance) and then calls `startStreamIfNeeded` (lines 261-264). -/
def lifeStep (s : SysState) : LifeEvent → SysState
  | LifeEvent.connect c =>
      let s1 := { s with clients := insert c s.clients }
      if s1.clients.card = 1 then startStreamIfNeeded s1 else s1
  | LifeEvent.disconnect c =>
      let s1 := { s with clients := s.clients.erase c }
      stopStreamIfNoClients s1
  | LifeEvent.streamError =>
      let s1 := { s with running := false }
      if 0 < s1.clients.card then { s1 with pendingTimers := s1.pendingTimers + 1 } else s1
  | LifeEvent.timerFire =>
      if 0 < s.pendingTimers then
        let s1 := { s with pendingTimers := s.pendingTimers - 1 }
        if 0 < s1.clients.card then
          { startStreamIfNeeded s1 with restartAttempts := s1.restartAttempts + 1 }
        else s1
      else s
  | LifeEvent.configUpdate =>
      let s1 := { s with streamExists := true, running := false }
      startStreamIfNeeded s1

/-- Process state right after startup (rtsp-stream.js lines 863-866): no
client yet, `stream = createStream()` has built a FrameSource instance but
`start` has not been called. -/
def initSysState : SysState :=
  { clients := ∅, streamExists := true, running := false,
    pendingTimers := 0, startCalls := 0, stopCalls := 0, restartAttempts := 0 }

/-- Run the lifecycle from process startup through a list of events. -/
def runLifeEvents (es : List LifeEvent) : SysState :=
  es.foldl lifeStep initSysState

/-- The wall-clock time at which the recovery timer scheduled by the
stream error handler fires: `setTimeout(..., 5000)` relative to the error. -/
def recoveryFireTime (errTime : Nat) : Nat := errTime + RESTART_DELAY_MS

/-- The JavaScript values that appear in configuration objects exchanged
with the server: strings, numbers and arrays of strings (the
`ffmpegOptions` list). -/
inductive JSValue where
  | str (s : String)
  | num (n : Int)
  | arr (xs : List String)
deriving DecidableEq

/-- A JavaScript object, as an association list of own enumerable keys in
insertion order (the shape a JSON body parsed by `body-parser` has; such
an object has no duplicate keys). -/
abbrev JSObject := List (String × JSValue)

/-- Property read `o[k]`. -/
def getKey (o : JSObject) (k : String) : Option JSValue :=
  (o.find? fun p => p.1 == k).map Prod.snd

/-- Key-presence test (`k in o`). -/
def hasKey (o : JSObject) (k : String) : Bool :=
  o.any fun p => p.1 == k

/-- Object spread `{ ...old, ...new }` (rtsp-stream.js line 258): every key
of `newO` overrides `old`; keys of `old` absent from `newO` keep their
value; keys of `newO` absent from `old` are added. -/
def spreadMerge (old newO : JSObject) : JSObject :=
  (old.filter fun p => !(hasKey newO p.1)) ++ newO

/-- `defaultConfig` (rtsp-stream.js lines 9-27), with `process.env.PORT`
unset so `port` is 3000. -/
def defaultConfig : JSObject :=
  [("rtspUrl", JSValue.str "rtsp://your-rtsp-url"),
   ("transport", JSValue.str "udp"),
   ("frameRate", JSValue.num 15),
   ("resolution", JSValue.str "640x360"),
   ("quality", JSValue.num 3),
   ("port", JSValue.num 3000),
   ("ffmpegOptions", JSValue.arr ["-fflags", "nobuffer", "-flags", "low_delay"])]

/-- State touched by a configuration update: the module-level
`activeConfig`, how many FrameSource instances have been created (each
`createStream` call that completes replaces the instance, so the
generation counter increments), whether the current instance is running,
and the client count. -/
structure ConfigState where
  activeConfig : JSObject
  streamGeneration : Nat
  running : Bool
  clientsCount : Nat
deriving DecidableEq

/-- JavaScript array-spread of a value, as used by `createStream` in
`[...config.ffmpegOptions]` (rtsp-stream.js lines 81-84): arrays spread to
their elements, strings spread to their characters (both iterable), and a
number is not iterable — spreading it throws a `TypeError`. -/
def spreadIterable : JSValue → Option (List String)
  | JSValue.arr xs => some xs
  | JSValue.str s => some (s.data.map fun ch => String.mk [ch])
  | JSValue.num _ => none

/-- `updateStreamConfig` (rtsp-stream.js lines 256-267).  It merges the
update into `activeConfig` with no validation, then calls
`createStream(activeConfig)`.  `createStream` first stops the previous
instance (lines 71-78, errors swallowed), then builds the FFmpeg argument
array — the only step that can throw for a JSON-shaped config, when
`config.ffmpegOptions` is not iterable — and then constructs the new
instance; finally `startStreamIfNeeded` starts it iff clients are present,
and the merged config is returned.  A thrown `TypeError` propagates to the
caller after `activeConfig` was already mutated and the old stream already
stopped. -/
def updateStreamConfigM (st : ConfigState) (newConfig : JSObject) :
    ConfigState × Except String JSObject :=
  let merged := spreadMerge st.activeConfig newConfig
  let st1 := { st with activeConfig := merged }
  match spreadIterable ((getKey merged "ffmpegOptions").getD (JSValue.arr [])) with
  | some _ =>
      let st2 := { st1 with streamGeneration := st1.streamGeneration + 1,
                            running := 0 < st1.clientsCount }
      (st2, Except.ok merged)
  | none =>
      ({ st1 with running := false }, Except.error "config.ffmpegOptions is not iterable")

/-- Response of `POST /api/config`. -/
inductive ApiResponse where
  | success (config : JSObject)
  | failure (error : String)
deriving DecidableEq

/-- The `POST /api/config` route (rtsp-stream.js lines 304-312):
`res.json({success:true, config})` on return,
status 400 with `{success:false, error: error.message}` when
`updateStreamConfig` throws. -/
def postConfigRoute (st : ConfigState) (body : JSObject) : ConfigState × ApiResponse :=
  let r := updateStreamConfigM st body
  match r.2 with
  | Except.ok cfg => (r.1, ApiResponse.success cfg)
  | Except.error m => (r.1, ApiResponse.failure m)

/-- Modelled from the spec (§6 External Interfaces), not from the code:
the field constraints a valid StreamConfig must satisfy —
`transport ∈ {tcp, udp}`, `frameRate` an integer in 1..30, `quality` an
integer in 1..31.  Used to compare the code's acceptance behaviour with
the validation the spec asserts. -/
def specValidConfig (cfg : JSObject) : Bool :=
  (match getKey cfg "transport" with
   | some (JSValue.str t) => t == "tcp" || t == "udp"
   | _ => false) &&
  (match getKey cfg "frameRate" with
   | some (JSValue.num n) => decide (1 ≤ n) && decide (n ≤ 30)
   | _ => false) &&
  (match getKey cfg "quality" with
   | some (JSValue.num q) => decide (1 ≤ q) && decide (q ≤ 31)
   | _ => false)

/-- Startup configuration state: `activeConfig = { ...defaultConfig }`,
one FrameSource instance created at startup, not running, no client. -/
def initConfigState : ConfigState :=
  { activeConfig := defaultConfig, streamGeneration := 1, running := false, clientsCount := 0 }

/-- Minimum byte size below which the consumer rejects a delivered unit
(`blob.size < 100`, rtsp-stream.js line 494). -/
def MIN_VALID_FRAME_SIZE : Nat := 100

/-- A unit delivered to the consumer-side `socket.on('stream')` handler:
its byte size, whether `createImageBitmap` can decode it, and the identity
of the bitmap the decode would produce. -/
structure FrameUnit where
  size : Nat
  decodable : Bool
  bitmapId : Nat
deriving DecidableEq

/-- Consumer-side player state relevant to frame handling
(rtsp-stream.js lines 366-374 and 474-546): the stored `lastValidFrame`
bitmap, the set of bitmaps whose underlying data has been released by
`close()`, the `processingFrame` re-entrancy flag and the two counters. -/
structure PlayerState where
  lastValidFrame : Option Nat
  closedBitmaps : List Nat
  processingFrame : Bool
  skippedFrames : Nat
  frameCount : Nat
deriving DecidableEq

/-- Player state at construction (rtsp-stream.js lines 367-373). -/
def initPlayerState : PlayerState :=
  { lastValidFrame := none, closedBitmaps := [], processingFrame := false,
    skippedFrames := 0, frameCount := 0 }

/-- The consumer-side `socket.on('stream')` handler
(rtsp-stream.js lines 474-546).  Returns the new player state and the
list of bitmaps successfully drawn onto the visible canvas during the
call.

Success path: draw the decoded bitmap offscreen, copy to the visible
canvas, store it as `lastValidFrame`, then `imageBitmap.close()` releases
its data (lines 503-511).  Failure path (unit too small or undecodable):
the guard `this.lastValidFrame && !this.lastValidFrame.closed` is tested —
a DOM `ImageBitmap` has no `closed` property, so the second conjunct reads
`!undefined`, which is always true — then `ctx.drawImage` on a bitmap
whose data was released throws `InvalidStateError`, caught by the inner
`catch` which sets `lastValidFrame = null` (lines 528-537); on a bitmap
still holding data the redraw succeeds.  The `finally` block clears
`processingFrame`, so it is false again at exit. -/
def onStreamData (st : PlayerState) (u : FrameUnit) : PlayerState × List Nat :=
  if st.processingFrame then
    ({ st with skippedFrames := st.skippedFrames + 1 }, [])
  else
    if u.size < MIN_VALID_FRAME_SIZE ∨ u.decodable = false then
      match st.lastValidFrame with
      | none => (st, [])
      | some b =>
          if b ∈ st.closedBitmaps then
            ({ st with lastValidFrame := none }, [])
          else
            (st, [b])
    else
      ({ st with lastValidFrame := some u.bitmapId,
                 closedBitmaps := u.bitmapId :: st.closedBitmaps,
                 frameCount := st.frameCount + 1 }, [u.bitmapId])

/-- Run the consumer handler over a sequence of delivered units,
collecting all visible-canvas draws. -/
def runPlayer : PlayerState → List FrameUnit → PlayerState × List Nat
  | st, [] => (st, [])
  | st, u :: us =>
      let r := onStreamData st u
      let rest := runPlayer r.1 us
      (rest.1, r.2 ++ rest.2)

/-- Server stats state read by `getStreamStats`
(rtsp-stream.js lines 50-60 and 270-295): times are `Date.now()`
milliseconds. -/
structure StatsState where
  frameCount : Nat
  totalFrames : Nat
  lastFrameTime : Nat
  lastCounterReset : Nat
  frameRate : Nat
  streamExists : Bool
  activeClientsCount : Nat
deriving DecidableEq

/-- `Math.round` on a (real-valued) JavaScript number: ⌊x + 1/2⌋. -/
def jsRound (q : ℚ) : ℤ := ⌊q + 1 / 2⌋

/-- `activeConfig.frameRate || 30` (rtsp-stream.js line 282): a falsy (zero)
frame rate falls back to 30. -/
def jsOrThirty (n : Nat) : Nat := if n = 0 then 30 else n

/-- The `currentFps` computation of `getStreamStats`
(rtsp-stream.js lines 276-284): 0 unless at least one frame was counted
since the last reset and the last frame arrived within 5 seconds of the
query; otherwise `Math.round(frameCount / Math.max(1, timeSinceReset))`
capped at `activeConfig.frameRate || 30`. -/
def currentFpsCode (st : StatsState) (now : Nat) : ℤ :=
  let secondsElapsed : ℚ := ((now : ℚ) - (st.lastFrameTime : ℚ)) / 1000
  if 0 < st.frameCount ∧ secondsElapsed < 5 then
    let timeSinceReset : ℚ := ((now : ℚ) - (st.lastCounterReset : ℚ)) / 1000
    min (jsRound ((st.frameCount : ℚ) / max 1 timeSinceReset)) ((jsOrThirty st.frameRate : ℤ))
  else 0

/-- The `setInterval` body resetting the stats counters every
`COUNTER_RESET_INTERVAL_MS` (rtsp-stream.js lines 63-66). -/
def resetCounters (st : StatsState) (now : Nat) : StatsState :=
  { st with frameCount := 0, lastCounterReset := now }

/-- The frame rate asserted by the claim, following its words, not the
code: `framesSinceReset / secondsSinceReset`, capped at the configured
target frame rate. -/
def claimedFps (st : StatsState) (now : Nat) : ℚ :=
  min ((st.frameCount : ℚ) / (((now : ℚ) - (st.lastCounterReset : ℚ)) / 1000))
    ((jsOrThirty st.frameRate : ℚ))

/-- The amended description of `currentFps`, stated separately from the
embedding so the equation between the two is a genuine comparison: the
rate is 0 when no frame was counted since the last reset or the last
frame is 5 seconds old or older; otherwise it is
`round(framesSinceReset / max(1 second, secondsSinceReset))` capped at
the configured target frame rate (30 when the configured rate is 0). -/
def amendedFps (st : StatsState) (now : Nat) : ℤ :=
  if 0 < st.frameCount ∧ ((now : ℚ) - (st.lastFrameTime : ℚ)) / 1000 < 5 then
    min (jsRound ((st.frameCount : ℚ) / max 1 (((now : ℚ) - (st.lastCounterReset : ℚ)) / 1000)))
      ((jsOrThirty st.frameRate : ℤ))
  else 0

/-- Lifecycle invariant: from startup onwards a FrameSource instance
always exists (`stream` is assigned at line 865 and never set back to
null); an empty client registry implies a stopped producer; and outside a
recovery window (no pending recovery timer) the producer runs iff the
registry is non-empty. -/
def LifeInv (s : SysState) : Prop :=
  s.streamExists = true ∧ (s.clients = ∅ → s.running = false) ∧
    (s.pendingTimers = 0 → (s.running = true ↔ s.clients ≠ ∅))

/-- A configuration update that violates the spec's field constraints:
`transport` is neither tcp nor udp and `frameRate` is out of range. -/
def badConfigUpdate : JSObject :=
  [("transport", JSValue.str "pigeon"), ("frameRate", JSValue.num 0)]

/-- Stats state for the C9 counterexample: 5 frames counted, the counter
reset 500 ms ago, the last frame just arrived, configured rate 15. -/
def statsHalfSecond : StatsState :=
  { frameCount := 5, totalFrames := 5, lastFrameTime := 500, lastCounterReset := 0,
    frameRate := 15, streamExists := true, activeClientsCount := 1 }

/-! Helper lemmas about the per-client queue. -/

theorem queueFrameForClient1_false (q : List Frame) (f : Frame) :
    queueFrameForClient1 false q f = (q, none) := rfl

theorem queueFrameForClient1_true (q : List Frame) (f : Frame) :
    queueFrameForClient1 true q f = ([], some f) := by
  by_cases h : MAX_QUEUE_SIZE < q.length + 1
  · have hk : q.length + 1 - MAX_QUEUE_SIZE ≤ q.length := by
      simp only [MAX_QUEUE_SIZE] at h ⊢
      omega
    have hdrop : (q ++ [f]).drop (q.length + 1 - MAX_QUEUE_SIZE)
        = q.drop (q.length + 1 - MAX_QUEUE_SIZE) ++ [f] :=
      List.drop_append_of_le_length hk
    simp [queueFrameForClient1, h, hdrop, List.getLast?_concat]
  · simp [queueFrameForClient1, h, List.getLast?_concat]

theorem scanl_queue_eq_replicate (events : List (Bool × Frame)) :
    events.scanl (fun q e => (queueFrameForClient1 e.1 q e.2).1) [] =
      List.replicate (events.length + 1) [] := by
  induction events with
  | nil => rfl
  | cons e es ih =>
    have hstep : (queueFrameForClient1 e.1 [] e.2).1 = [] := by
      cases hb : e.1
      · rw [queueFrameForClient1_false]
      · rw [queueFrameForClient1_true]
    simp only [List.scanl_cons, hstep, ih, List.length_cons]
    rw [List.replicate_succ]
    rfl

theorem runClient_deliveries (events : List (Bool × Frame)) :
    (runClient [] events).2 = (events.filter fun e => e.1).map Prod.snd := by
  induction events with
  | nil => rfl
  | cons e es ih =>
    obtain ⟨b, f⟩ := e
    cases b
    · simpa [runClient, queueFrameForClient1_false] using ih
    · simpa [runClient, queueFrameForClient1_true] using ih

/-! Helper lemmas about batching. -/

theorem batchClientsAux_length (rest : List ClientId) :
    ∀ (batches : List (List ClientId)) (currentBatch : List ClientId),
      currentBatch.length < MAX_CLIENTS_PER_FRAME →
      (batchClientsAux rest batches currentBatch).length =
        batches.length +
          (currentBatch.length + rest.length + (MAX_CLIENTS_PER_FRAME - 1)) /
            MAX_CLIENTS_PER_FRAME := by
  induction rest with
  | nil =>
    intro batches cur hcur
    unfold batchClientsAux
    by_cases h : 0 < cur.length
    · rw [if_pos h]
      simp [MAX_CLIENTS_PER_FRAME] at hcur ⊢
      omega
    · rw [if_neg h]
      simp [MAX_CLIENTS_PER_FRAME] at hcur ⊢
      omega
  | cons c rest ih =>
    intro batches cur hcur
    unfold batchClientsAux
    by_cases h : MAX_CLIENTS_PER_FRAME ≤ (cur ++ [c]).length
    · rw [if_pos h, ih _ [] (by simp [MAX_CLIENTS_PER_FRAME])]
      simp [MAX_CLIENTS_PER_FRAME] at h hcur ⊢
      omega
    · rw [if_neg h, ih _ _ (by simpa using h)]
      simp [MAX_CLIENTS_PER_FRAME] at h hcur ⊢
      omega

theorem batchClientsAux_flatten (rest : List ClientId) :
    ∀ (batches : List (List ClientId)) (currentBatch : List ClientId),
      (batchClientsAux rest batches currentBatch).flatten =
        batches.flatten ++ currentBatch ++ rest := by
  induction rest with
  | nil =>
    intro batches cur
    unfold batchClientsAux
    by_cases h : 0 < cur.length
    · rw [if_pos h]
      simp
    · rw [if_neg h]
      have hc : cur = [] := by
        cases cur with
        | nil => rfl
        | cons a l => simp at h
      simp [hc]
  | cons c rest ih =>
    intro batches cur
    unfold batchClientsAux
    by_cases h : MAX_CLIENTS_PER_FRAME ≤ (cur ++ [c]).length
    · rw [if_pos h, ih]
      simp
    · rw [if_neg h, ih]
      simp

theorem batchClients_flatten (clients : List ClientId) :
    (batchClients clients).flatten = clients := by
  unfold batchClients
  rw [batchClientsAux_flatten]
  simp

theorem processBatchesFrom_eq (bs : List (List ClientId)) :
    ∀ t, processBatchesFrom t bs =
      bs.enum.map (fun kb => (t + BATCH_STAGGER_MS * kb.1, kb.2)) := by
  induction bs with
  | nil => intro t; rfl
  | cons b rest ih =>
    intro t
    unfold processBatchesFrom
    by_cases h : 0 < rest.length
    · rw [if_pos h, ih, List.enum_cons']
      simp only [List.map_cons, List.map_map, Nat.mul_zero, Nat.add_zero]
      congr 1
      apply List.map_congr_left
      intro p _
      obtain ⟨i, v⟩ := p
      simp only [Function.comp_apply, Prod.map_apply, id_eq, Prod.mk.injEq, and_true,
        BATCH_STAGGER_MS]
      omega
    · have hr : rest = [] := by
        cases rest with
        | nil => rfl
        | cons x l => simp at h
      subst hr
      simp [List.enum_cons']

theorem handleNewFrame_eq (clients : List ClientId) :
    handleNewFrame clients =
      (batchClients clients).enum.map (fun kb => (BATCH_STAGGER_MS * kb.1, kb.2)) := by
  unfold handleNewFrame processClientBatch
  rw [List.drop_zero, processBatchesFrom_eq]
  simp

/-! Helper lemmas about the lifecycle state machine. -/

theorem lifeStep_preserves (s : SysState) (e : LifeEvent) (h : LifeInv s) :
    LifeInv (lifeStep s e) := by
  obtain ⟨h1, h2, h3⟩ := h
  cases e with
  | connect c =>
    show LifeInv (if (insert c s.clients).card = 1 then _ else _)
    by_cases hc : (insert c s.clients).card = 1
    · rw [if_pos hc]
      unfold startStreamIfNeeded
      rw [if_pos (by simp [hc])]
      refine ⟨rfl, fun habs => absurd habs (by simp), fun _ => ?_⟩
      simp
    · rw [if_neg hc]
      refine ⟨h1, ?_, ?_⟩
      · intro habs
        exact absurd habs (by simp [Finset.insert_ne_empty])
      · intro hp
        have hsc : s.clients ≠ ∅ := by
          intro h0
        -- if s.clients were empty, insert would be a singleton of card 1
          exact hc (by simp [h0])
        simp only [ne_eq, Finset.insert_ne_empty, not_false_eq_true, iff_true]
        exact (h3 hp).mpr hsc
  | disconnect c =>
    show LifeInv (stopStreamIfNoClients _)
    unfold stopStreamIfNoClients
    by_cases hc : (s.clients.erase c).card = 0
    · rw [if_pos (by exact ⟨hc, h1⟩)]
      have he : s.clients.erase c = ∅ := Finset.card_eq_zero.mp hc
      exact ⟨h1, fun _ => rfl, fun _ => by simp [he]⟩
    · rw [if_neg (by intro habs; exact hc habs.1)]
      have hne : s.clients.erase c ≠ ∅ := by
        intro habs
        exact hc (by simp [habs])
      refine ⟨h1, fun habs => absurd habs hne, fun hp => ?_⟩
      have hsc : s.clients ≠ ∅ := by
        intro h0
        exact hne (by simp [h0])
      simp only [ne_eq, hne, not_false_eq_true, iff_true]
      exact (h3 hp).mpr hsc
  | streamError =>
    show LifeInv (if 0 < s.clients.card then _ else _)
    by_cases hc : 0 < s.clients.card
    · rw [if_pos hc]
      exact ⟨h1, fun _ => rfl, fun habs => absurd habs (Nat.succ_ne_zero _)⟩
    · rw [if_neg hc]
      have he : s.clients = ∅ := Finset.card_eq_zero.mp (Nat.eq_zero_of_not_pos hc)
      exact ⟨h1, fun _ => rfl, fun _ => by simp [he]⟩
  | timerFire =>
    show LifeInv (if 0 < s.pendingTimers then _ else _)
    by_cases hp : 0 < s.pendingTimers
    · rw [if_pos hp]
      by_cases hc : 0 < s.clients.card
      · simp only [hc, if_pos]
        refine ⟨by simp [startStreamIfNeeded, hc], ?_, ?_⟩
        · intro habs
          have : s.clients ≠ ∅ := Finset.card_pos.mp hc |>.ne_empty
          exact absurd habs (by simpa [startStreamIfNeeded, hc] using this)
        · intro _
          have : s.clients ≠ ∅ := Finset.card_pos.mp hc |>.ne_empty
          simp [startStreamIfNeeded, hc, this]
      · simp only [hc, if_neg, if_false]
        have he : s.clients = ∅ := Finset.card_eq_zero.mp (Nat.eq_zero_of_not_pos hc)
        exact ⟨h1, fun _ => h2 he, fun _ => by simp [he, h2 he]⟩
    · rw [if_neg hp]
      exact ⟨h1, h2, h3⟩
  | configUpdate =>
    show LifeInv (startStreamIfNeeded _)
    unfold startStreamIfNeeded
    by_cases hc : 0 < s.clients.card
    · rw [if_pos hc]
      have : s.clients ≠ ∅ := Finset.card_pos.mp hc |>.ne_empty
      exact ⟨rfl, fun habs => absurd habs this, fun _ => by simp [this]⟩
    · rw [if_neg hc]
      have he : s.clients = ∅ := Finset.card_eq_zero.mp (Nat.eq_zero_of_not_pos hc)
      exact ⟨rfl, fun _ => rfl, fun _ => by simp [he]⟩

theorem foldl_lifeStep_inv (es : List LifeEvent) :
    ∀ s : SysState, LifeInv s → LifeInv (es.foldl lifeStep s) := by
  induction es with
  | nil => intro s h; exact h
  | cons e es ih =>
    intro s h
    exact ih _ (lifeStep_preserves s e h)

theorem runLifeEvents_inv (es : List LifeEvent) : LifeInv (runLifeEvents es) := by
  refine foldl_lifeStep_inv es initSysState ⟨rfl, fun _ => rfl, fun _ => ?_⟩
  simp [initSysState]

/-! Helper lemmas about configuration objects. -/

theorem find?_filter_eq (l : List (String × JSValue)) (p q : String × JSValue → Bool)
    (h : ∀ x, p x = true → q x = true) :
    (l.filter q).find? p = l.find? p := by
  induction l with
  | nil => rfl
  | cons a l ih =>
    by_cases hq : q a = true
    · rw [List.filter_cons_of_pos hq]
      by_cases hp : p a = true
      · rw [List.find?_cons_of_pos _ hp, List.find?_cons_of_pos _ hp]
      · have hp' : ¬ p a = true := hp
        rw [List.find?_cons_of_neg _ hp', List.find?_cons_of_neg _ hp', ih]
    · have hp' : ¬ p a = true := fun hpa => hq (h a hpa)
      rw [List.filter_cons_of_neg (by simpa using hq), ih, List.find?_cons_of_neg _ hp']

theorem getKey_spreadMerge_of_not_has (old body : JSObject) (k : String)
    (h : hasKey body k = false) :
    getKey (spreadMerge old body) k = getKey old k := by
  unfold getKey spreadMerge
  rw [List.find?_append]
  have hbody : body.find? (fun p => p.1 == k) = none := by
    rw [List.find?_eq_none]
    intro x hx hxk
    have : hasKey body k = true := by
      unfold hasKey
      rw [List.any_eq_true]
      exact ⟨x, hx, hxk⟩
    rw [h] at this
    exact Bool.noConfusion this
  rw [hbody]
  rw [find?_filter_eq]
  · cases old.find? fun p => p.1 == k with
    | none => rfl
    | some v => rfl
  · intro x hx
    have hxk : x.1 = k := by simpa using hx
    simp [hxk, h]

theorem getKey_spreadMerge_of_has (old body : JSObject) (k : String)
    (h : hasKey body k = true) :
    getKey (spreadMerge old body) k = getKey body k := by
  unfold getKey spreadMerge
  rw [List.find?_append]
  have hfilter : (old.filter fun p => !(hasKey body p.1)).find? (fun p => p.1 == k) = none := by
    rw [List.find?_eq_none]
    intro x hx hxk
    have hmem := List.mem_filter.mp hx
    have hxk' : x.1 = k := by simpa using hxk
    rw [hxk', h] at hmem
    simpa using hmem.2
  rw [hfilter]
  cases body.find? fun p => p.1 == k with
  | none => rfl
  | some v => rfl

theorem updateStreamConfigM_activeConfig (st : ConfigState) (body : JSObject) :
    (updateStreamConfigM st body).1.activeConfig = spreadMerge st.activeConfig body := by
  simp only [updateStreamConfigM]
  split
  · rfl
  · rfl

/-! The claims. -/

/-- C1: for every client and every sequence of frames broadcast to it, the
client's pending-frame queue holds at most one frame (in fact zero) after
each `queueFrameForClient` call, and a newly arriving frame always
replaces any still-unsent frame: when the client is connected, the call
leaves the queue empty and the frame it sends is the new frame, whatever
was pending before. -/
theorem c1_queue_bound :
    (∀ events : List (Bool × Frame),
      ((events.scanl (fun q e => (queueFrameForClient1 e.1 q e.2).1) []).all
        fun q => decide (q.length ≤ 1)) = true) ∧
    (∀ (q : List Frame) (f : Frame),
      (queueFrameForClient1 true q f).1 = [] ∧ (queueFrameForClient1 true q f).2 = some f) := by
  constructor
  · intro events
    rw [scanl_queue_eq_replicate]
    simp
  · intro q f
    rw [queueFrameForClient1_true]
    exact ⟨rfl, rfl⟩

/-- C2: if frames `f1` then `f2` arrive for a client before either is
delivered (in the code, a frame arriving for a connected client is
delivered within the same `queueFrameForClient` call, so `f1` being
undelivered at `f2`'s arrival means the client was unreachable at `f1`'s
call), then `f1` is never delivered in the whole run and `f2` is
delivered: only the newest frame reaches the client. -/
theorem c2_newest_wins (pre post : List (Bool × Frame)) (f1 f2 : Frame)
    (h1 : f1 ∉ pre.map Prod.snd) (h2 : f1 ≠ f2) (h3 : f1 ∉ post.map Prod.snd) :
    f1 ∉ (runClient [] (pre ++ (false, f1) :: (true, f2) :: post)).2 ∧
    f2 ∈ (runClient [] (pre ++ (false, f1) :: (true, f2) :: post)).2 := by
  rw [runClient_deliveries]
  constructor
  · intro hmem
    rw [List.mem_map] at hmem
    obtain ⟨e, he, hesnd⟩ := hmem
    rw [List.mem_filter] at he
    obtain ⟨hein, hetrue⟩ := he
    rcases List.mem_append.mp hein with hpre | hrest
    · exact h1 (List.mem_map.mpr ⟨e, hpre, hesnd⟩)
    · rcases List.mem_cons.mp hrest with hf1 | hrest2
      · rw [hf1] at hetrue
        exact Bool.noConfusion hetrue
      · rcases List.mem_cons.mp hrest2 with hf2 | hpost
        · rw [hf2] at hesnd
          exact h2 hesnd.symm
        · exact h3 (List.mem_map.mpr ⟨e, hpost, hesnd⟩)
  · refine List.mem_map.mpr ⟨(true, f2), List.mem_filter.mpr ⟨?_, rfl⟩, rfl⟩
    simp

/-- Witness for C2 at a concrete run: the client is unreachable when
frame 1 arrives and reachable when frame 2 arrives; frame 1 is never
delivered and frame 2 is. -/
theorem c2_newest_wins_witness :
    1 ∉ (runClient [] [(false, 1), (true, 2)]).2 ∧
    2 ∈ (runClient [] [(false, 1), (true, 2)]).2 := by
  have h := c2_newest_wins [] [] 1 2 (by simp) (by decide) (by simp)
  simpa using h

/-- C3: registering the first client (none running) performs exactly one
`start` call and no `stop` call; registering a client while others are
connected performs neither; unregistering the last client performs
exactly one `stop` call and no `start` call; unregistering while other
clients remain performs neither. -/
theorem c3_lifecycle_symmetry (s : SysState) (c : ClientId) :
    (s.clients = ∅ → s.running = false →
      (lifeStep s (LifeEvent.connect c)).startCalls = s.startCalls + 1 ∧
      (lifeStep s (LifeEvent.connect c)).stopCalls = s.stopCalls) ∧
    (c ∉ s.clients → s.clients.Nonempty →
      (lifeStep s (LifeEvent.connect c)).startCalls = s.startCalls ∧
      (lifeStep s (LifeEvent.connect c)).stopCalls = s.stopCalls) ∧
    (s.streamExists = true → s.clients.erase c = ∅ →
      (lifeStep s (LifeEvent.disconnect c)).stopCalls = s.stopCalls + 1 ∧
      (lifeStep s (LifeEvent.disconnect c)).startCalls = s.startCalls) ∧
    ((s.clients.erase c).Nonempty →
      (lifeStep s (LifeEvent.disconnect c)).stopCalls = s.stopCalls ∧
      (lifeStep s (LifeEvent.disconnect c)).startCalls = s.startCalls) := by
  refine ⟨?_, ?_, ?_, ?_⟩
  · intro hempty _
    have hc : (insert c s.clients).card = 1 := by
      rw [hempty]
      simp
    simp [lifeStep, hc, startStreamIfNeeded]
  · intro hnotmem hne
    have hc : (insert c s.clients).card ≠ 1 := by
      rw [Finset.card_insert_of_not_mem hnotmem]
      have := Finset.Nonempty.card_pos hne
      omega
    simp [lifeStep, hc]
  · intro hexists hlast
    have hc : (s.clients.erase c).card = 0 := by
      rw [hlast]
      rfl
    simp [lifeStep, stopStreamIfNoClients, hc, hexists]
  · intro hne
    have hc : ¬ (s.clients.erase c).card = 0 := by
      have := Finset.Nonempty.card_pos hne
      omega
    simp [lifeStep, stopStreamIfNoClients, hc]

/-- Witness for C3: concrete registry states exercising all four cases —
first client joining the empty registry, a second client joining `{2}`,
the last client leaving `{1}`, and one of two clients leaving `{1, 2}`. -/
theorem c3_lifecycle_symmetry_witness :
    (lifeStep initSysState (LifeEvent.connect 1)).startCalls = 1 ∧
    (lifeStep { initSysState with clients := {2}, running := true }
        (LifeEvent.connect 1)).startCalls = 0 ∧
    (lifeStep { initSysState with clients := {1}, running := true }
        (LifeEvent.disconnect 1)).stopCalls = 1 ∧
    (lifeStep { initSysState with clients := {1, 2}, running := true }
        (LifeEvent.disconnect 1)).stopCalls = 0 := by
  refine ⟨?_, ?_, ?_, ?_⟩
  · exact ((c3_lifecycle_symmetry initSysState 1).1 rfl rfl).1
  · exact ((c3_lifecycle_symmetry { initSysState with clients := {2}, running := true } 1).2.1
      (by decide) (by decide)).1
  · exact ((c3_lifecycle_symmetry { initSysState with clients := {1}, running := true } 1).2.2.1
      rfl (by decide)).1
  · exact ((c3_lifecycle_symmetry { initSysState with clients := {1, 2}, running := true } 1).2.2.2
      (by decide)).1

/-- C4: broadcasting one frame to distinct clients schedules exactly
⌈N / B⌉ batches for batch size B = `MAX_CLIENTS_PER_FRAME` = 10; batch 0
is processed synchronously (offset 0 ms) and batch k at offset 5·k ms, in
strict index order; and every client occurs in at most one processed
batch, so a client that remains connected receives at most one delivery
of that frame. -/
theorem c4_batch_schedule (clients : List ClientId) (hnd : clients.Nodup) :
    (batchClients clients).length =
      (clients.length + (MAX_CLIENTS_PER_FRAME - 1)) / MAX_CLIENTS_PER_FRAME ∧
    handleNewFrame clients =
      (batchClients clients).enum.map (fun kb => (BATCH_STAGGER_MS * kb.1, kb.2)) ∧
    ∀ c : ClientId, (((handleNewFrame clients).map Prod.snd).flatten.count c) ≤ 1 := by
  refine ⟨?_, handleNewFrame_eq clients, ?_⟩
  · unfold batchClients
    rw [batchClientsAux_length clients [] [] (by simp [MAX_CLIENTS_PER_FRAME])]
    simp
  · intro c
    rw [handleNewFrame_eq, List.map_map]
    have hsnd : (Prod.snd ∘ fun kb : Nat × List ClientId =>
        (BATCH_STAGGER_MS * kb.1, kb.2)) = Prod.snd := rfl
    rw [hsnd, List.enum_map_snd, batchClients_flatten]
    exact List.nodup_iff_count_le_one.mp hnd c

/-- Witness for C4 at 23 distinct clients: 3 batches (⌈23/10⌉), the
schedule is batch 0 at 0 ms, batch 1 at 5 ms, batch 2 at 10 ms, and
client 7 is delivered to at most once. -/
theorem c4_batch_schedule_witness :
    (batchClients (List.range 23)).length = 3 ∧
    handleNewFrame (List.range 23) =
      (batchClients (List.range 23)).enum.map (fun kb => (BATCH_STAGGER_MS * kb.1, kb.2)) ∧
    (((handleNewFrame (List.range 23)).map Prod.snd).flatten.count 7) ≤ 1 := by
  obtain ⟨h1, h2, h3⟩ := c4_batch_schedule (List.range 23) (List.nodup_range 23)
  refine ⟨?_, h2, h3 7⟩
  rw [h1]
  norm_num [MAX_CLIENTS_PER_FRAME]

/-- C5 counterexample to the claim as stated: from startup, the trace
[connect 1, streamError, disconnect 1, connect 2, timerFire] drops the
client count to zero while the recovery timer is still pending (first two
conjuncts), yet when the timer fires a restart attempt does occur (third
conjunct) — the code checks the client count only at fire time and never
cancels the pending timer, so "no restart attempt occurs" is false. -/
theorem c5_restart_after_churn :
    (runLifeEvents [LifeEvent.connect 1, LifeEvent.streamError,
        LifeEvent.disconnect 1]).clients = ∅ ∧
    0 < (runLifeEvents [LifeEvent.connect 1, LifeEvent.streamError,
        LifeEvent.disconnect 1]).pendingTimers ∧
    (runLifeEvents [LifeEvent.connect 1, LifeEvent.streamError, LifeEvent.disconnect 1,
        LifeEvent.connect 2, LifeEvent.timerFire]).restartAttempts = 1 := by
  refine ⟨by decide, by decide, by decide⟩

/-- C5 (amended): a producer error with at least one client registered
schedules exactly one recovery timer, which fires `RESTART_DELAY_MS` =
5000 ms after the error (never earlier); when a pending timer fires it is
consumed, and a restart attempt occurs iff at least one client is
registered at that moment — a drop to zero does not cancel the timer, it
only suppresses the attempt if the registry is still empty at fire
time. -/
theorem c5_recovery_delay (s sF : SysState) (t : Nat)
    (hs : 0 < s.clients.card) (hF : 0 < sF.pendingTimers) :
    (lifeStep s LifeEvent.streamError).pendingTimers = s.pendingTimers + 1 ∧
    (lifeStep sF LifeEvent.timerFire).pendingTimers = sF.pendingTimers - 1 ∧
    (lifeStep sF LifeEvent.timerFire).restartAttempts =
      sF.restartAttempts + (if 0 < sF.clients.card then 1 else 0) ∧
    recoveryFireTime t = t + RESTART_DELAY_MS := by
  refine ⟨by simp [lifeStep, hs], ?_, ?_, rfl⟩
  · by_cases hc : 0 < sF.clients.card
    · simp [lifeStep, hF, hc, startStreamIfNeeded]
    · simp [lifeStep, hF, hc]
  · by_cases hc : 0 < sF.clients.card
    · simp [lifeStep, hF, hc, startStreamIfNeeded]
    · simp [lifeStep, hF, hc]

/-- Witness for C5 (amended): an error with one client registered leaves
one pending timer; a fire with one client registered and one pending
timer makes exactly one restart attempt; the timer fires 5000 ms after an
error at t = 100. -/
theorem c5_recovery_delay_witness :
    (lifeStep { initSysState with clients := {1}, running := true }
        LifeEvent.streamError).pendingTimers = 1 ∧
    (lifeStep { initSysState with clients := {1}, pendingTimers := 1 }
        LifeEvent.timerFire).restartAttempts = 1 ∧
    recoveryFireTime 100 = 5100 := by
  obtain ⟨h1, _, _, _⟩ := c5_recovery_delay
    { initSysState with clients := {1}, running := true }
    { initSysState with clients := {1}, pendingTimers := 1 } 100 (by decide) (by decide)
  obtain ⟨_, _, h3, h4⟩ := c5_recovery_delay
    { initSysState with clients := {1}, running := true }
    { initSysState with clients := {1}, pendingTimers := 1 } 100 (by decide) (by decide)
  refine ⟨by simpa using h1, ?_, by simpa [RESTART_DELAY_MS] using h4⟩
  rw [h3]
  simp [initSysState]

/-- C6: in every state reachable from process startup in which no
recovery timer is pending (outside the bounded recovery window after a
producer error), a FrameSource instance exists and is running iff the
client registry is non-empty. -/
theorem c6_running_iff_clients (es : List LifeEvent)
    (h : (runLifeEvents es).pendingTimers = 0) :
    ((runLifeEvents es).streamExists = true ∧ (runLifeEvents es).running = true) ↔
      (runLifeEvents es).clients ≠ ∅ := by
  obtain ⟨h1, _, h3⟩ := runLifeEvents_inv es
  constructor
  · rintro ⟨_, hr⟩
    exact (h3 h).mp hr
  · intro hne
    exact ⟨h1, (h3 h).mpr hne⟩

/-- Witness for C6: after the single event [connect 1] no timer is
pending, the registry is non-empty, and the theorem yields that the
producer is running. -/
theorem c6_running_iff_clients_witness :
    (runLifeEvents [LifeEvent.connect 1]).running = true :=
  ((c6_running_iff_clients [LifeEvent.connect 1] (by decide)).mpr (by decide)).2

/-- C7 counterexample to the claim as stated: the update
`{transport: "pigeon", frameRate: 0}` violates the spec's own field
constraints, yet the `POST /api/config` route accepts it — it replies
success with the merged configuration instead of a structured error, the
merged active configuration is invalid, and the FrameSource is replaced
(its generation increments), so the running stream is affected. -/
theorem c7_no_validation :
    specValidConfig (postConfigRoute initConfigState badConfigUpdate).1.activeConfig = false ∧
    (postConfigRoute initConfigState badConfigUpdate).2 =
      ApiResponse.success (spreadMerge defaultConfig badConfigUpdate) ∧
    (postConfigRoute initConfigState badConfigUpdate).1.streamGeneration =
      initConfigState.streamGeneration + 1 := by
  refine ⟨by decide, by decide, by decide⟩

/-- C7 (amended): a submitted configuration update is merged into the
active configuration verbatim with no validation; when stream recreation
does not throw, the route replies success with the merged configuration
and the FrameSource is replaced (generation increments); when recreation
throws (a non-iterable `ffmpegOptions` value), the requester gets a
structured error with the exception message, but the active configuration
has already been mutated and the previous stream already stopped. -/
theorem c7_config_update_behaviour (st : ConfigState) (body : JSObject) :
    (updateStreamConfigM st body).1.activeConfig = spreadMerge st.activeConfig body ∧
    (∀ cfg, (updateStreamConfigM st body).2 = Except.ok cfg →
      cfg = spreadMerge st.activeConfig body ∧
      (updateStreamConfigM st body).1.streamGeneration = st.streamGeneration + 1 ∧
      postConfigRoute st body = ((updateStreamConfigM st body).1, ApiResponse.success cfg)) ∧
    (∀ m, (updateStreamConfigM st body).2 = Except.error m →
      (updateStreamConfigM st body).1.streamGeneration = st.streamGeneration ∧
      (updateStreamConfigM st body).1.running = false ∧
      postConfigRoute st body = ((updateStreamConfigM st body).1, ApiResponse.failure m)) := by
  cases hiter : spreadIterable ((getKey (spreadMerge st.activeConfig body)
      "ffmpegOptions").getD (JSValue.arr [])) with
  | some xs =>
    have hupd : updateStreamConfigM st body =
        ({ activeConfig := spreadMerge st.activeConfig body,
           streamGeneration := st.streamGeneration + 1,
           running := decide (0 < st.clientsCount), clientsCount := st.clientsCount },
         Except.ok (spreadMerge st.activeConfig body)) := by
      simp only [updateStreamConfigM, hiter]
    rw [hupd]
    refine ⟨rfl, ?_, ?_⟩
    · intro cfg hcfg
      have hc : cfg = spreadMerge st.activeConfig body := by
        simpa using hcfg.symm
      subst hc
      refine ⟨rfl, rfl, ?_⟩
      simp [postConfigRoute, hupd]
    · intro m hm
      simp at hm
  | none =>
    have hupd : updateStreamConfigM st body =
        ({ activeConfig := spreadMerge st.activeConfig body,
           streamGeneration := st.streamGeneration,
           running := false, clientsCount := st.clientsCount },
         Except.error "config.ffmpegOptions is not iterable") := by
      simp only [updateStreamConfigM, hiter]
    rw [hupd]
    refine ⟨rfl, ?_, ?_⟩
    · intro cfg hcfg
      simp at hcfg
    · intro m hm
      have hmm : m = "config.ffmpegOptions is not iterable" := by
        simpa using hm.symm
      subst hmm
      refine ⟨rfl, rfl, ?_⟩
      simp [postConfigRoute, hupd]

/-- Witness for C7 (amended): updating `frameRate` to 20 from the default
configuration merges verbatim and replaces the stream (generation 1 → 2). -/
theorem c7_config_update_behaviour_witness :
    (updateStreamConfigM initConfigState [("frameRate", JSValue.num 20)]).1.activeConfig =
      spreadMerge defaultConfig [("frameRate", JSValue.num 20)] ∧
    (updateStreamConfigM initConfigState [("frameRate", JSValue.num 20)]).1.streamGeneration
      = 2 := by
  obtain ⟨h1, h2, _⟩ :=
    c7_config_update_behaviour initConfigState [("frameRate", JSValue.num 20)]
  refine ⟨h1, ?_⟩
  have h3 := h2 (spreadMerge defaultConfig [("frameRate", JSValue.num 20)]) rfl
  exact h3.2.1

/-- C8: the first half of the claim holds (a unit below the minimum size
or failing decode is discarded: it is never drawn and the counters
advance only on success), but the re-render of the last good frame never
happens.  Evaluating the handler on a valid frame (bitmap 1) followed by
a 50-byte corrupt unit: the only visible-canvas draw of the whole run is
the first frame's own draw (no redraw of bitmap 1 for the corrupt unit),
and `lastValidFrame` is wiped to `none` — because the code closed the
stored bitmap right after storing it, the fallback `drawImage` throws and
the handler destroys its own fallback state. -/
theorem c8_no_rerender_of_last_frame :
    (runPlayer initPlayerState [⟨5000, true, 1⟩, ⟨50, true, 2⟩]).2 = [1] ∧
    (runPlayer initPlayerState [⟨5000, true, 1⟩, ⟨50, true, 2⟩]).1.lastValidFrame = none ∧
    (onStreamData { lastValidFrame := some 1, closedBitmaps := [1], processingFrame := false,
                    skippedFrames := 0, frameCount := 1 } ⟨50, true, 2⟩).2 = [] := by
  refine ⟨by decide, by decide, by decide⟩

/-- C9 counterexample to the claim as stated: with 5 frames counted since
a reset 500 ms ago, the last frame fresh, and target rate 15, the claim's
formula `framesSinceReset / secondsSinceReset` capped at the target gives
10, but `getStreamStats` reports 5 — the code divides by
`Math.max(1, secondsSinceReset)`, flooring the divisor at one second. -/
theorem c9_rate_formula_differs :
    currentFpsCode statsHalfSecond 500 = 5 ∧
    claimedFps statsHalfSecond 500 = 10 ∧
    (currentFpsCode statsHalfSecond 500 : ℚ) ≠ claimedFps statsHalfSecond 500 := by
  have h1 : currentFpsCode statsHalfSecond 500 = 5 := by
    unfold currentFpsCode statsHalfSecond
    norm_num [jsRound, jsOrThirty]
  have h2 : claimedFps statsHalfSecond 500 = 10 := by
    unfold claimedFps statsHalfSecond
    norm_num [jsOrThirty]
  refine ⟨h1, h2, ?_⟩
  rw [h1, h2]
  norm_num

/-- C9 (amended): whenever stats are queried, the reported rate equals 0
if no frame was counted since the last reset or the last frame is 5 s old
or older, and otherwise equals
`round(framesSinceReset / max(1 s, secondsSinceReset))` capped at the
configured target frame rate (30 when the configured rate is falsy); in
particular the report never exceeds the configured target, and the frame
counter is reset to 0 on the fixed 10-second cadence. -/
theorem c9_stats_rate (st : StatsState) (now t : Nat) :
    currentFpsCode st now = amendedFps st now ∧
    currentFpsCode st now ≤ (jsOrThirty st.frameRate : ℤ) ∧
    (resetCounters st t).frameCount = 0 ∧
    COUNTER_RESET_INTERVAL_MS = 10000 := by
  refine ⟨rfl, ?_, rfl, rfl⟩
  unfold currentFpsCode
  by_cases h : 0 < st.frameCount ∧ ((now : ℚ) - (st.lastFrameTime : ℚ)) / 1000 < 5
  · rw [if_pos h]
    exact min_le_right _ _
  · rw [if_neg h]
    exact Int.natCast_nonneg _

/-- C10: a configuration update merges over the previous active
configuration: every key absent from the update keeps its previous value,
every key present in the update (schema-known or not) is stored verbatim,
and the configuration returned on success is exactly the new stored
active configuration. -/
theorem c10_merge_semantics (st : ConfigState) (body : JSObject) (k : String) :
    (hasKey body k = false →
      getKey (updateStreamConfigM st body).1.activeConfig k = getKey st.activeConfig k) ∧
    (hasKey body k = true →
      getKey (updateStreamConfigM st body).1.activeConfig k = getKey body k) ∧
    (∀ cfg, (updateStreamConfigM st body).2 = Except.ok cfg →
      cfg = (updateStreamConfigM st body).1.activeConfig) := by
  refine ⟨?_, ?_, ?_⟩
  · intro h
    rw [updateStreamConfigM_activeConfig]
    exact getKey_spreadMerge_of_not_has _ _ _ h
  · intro h
    rw [updateStreamConfigM_activeConfig]
    exact getKey_spreadMerge_of_has _ _ _ h
  · intro cfg hcfg
    rw [updateStreamConfigM_activeConfig]
    revert hcfg
    simp only [updateStreamConfigM]
    split
    · intro hcfg
      simpa using hcfg.symm
    · intro hcfg
      simp at hcfg

/-- Witness for C10: updating only `quality` keeps the default `rtspUrl`
(a key absent from the update), stores the new `quality` verbatim, and
keeps an unknown extra key verbatim as well. -/
theorem c10_merge_semantics_witness :
    getKey (updateStreamConfigM initConfigState
      [("quality", JSValue.num 7), ("mystery", JSValue.str "kept")]).1.activeConfig "rtspUrl"
      = some (JSValue.str "rtsp://your-rtsp-url") ∧
    getKey (updateStreamConfigM initConfigState
      [("quality", JSValue.num 7), ("mystery", JSValue.str "kept")]).1.activeConfig "quality"
      = some (JSValue.num 7) ∧
    getKey (updateStreamConfigM initConfigState
      [("quality", JSValue.num 7), ("mystery", JSValue.str "kept")]).1.activeConfig "mystery"
      = some (JSValue.str "kept") := by
  obtain ⟨hu, _, _⟩ := c10_merge_semantics initConfigState
    [("quality", JSValue.num 7), ("mystery", JSValue.str "kept")] "rtspUrl"
  obtain ⟨_, hq, _⟩ := c10_merge_semantics initConfigState
    [("quality", JSValue.num 7), ("mystery", JSValue.str "kept")] "quality"
  obtain ⟨_, hm, _⟩ := c10_merge_semantics initConfigState
    [("quality", JSValue.num 7), ("mystery", JSValue.str "kept")] "mystery"
  refine ⟨?_, ?_, ?_⟩
  · rw [hu (by decide)]
    decide
  · rw [hq (by decide)]
    decide
  · rw [hm (by decide)]
    decide

end RtspWebViewer
